import Mathlib

/-!
Verification of the PowerStore bulk-provisioning script
(`powerstore_service.py`) against its natural-language specification.

The script is a single linear pass: read `file_systems.csv` into a list of
dict rows (`csv.DictReader`), then for each row build a JSON payload and
POST it to the array's `filesystems` endpoint, reporting success or failure
per row.  The embedding below translates the script's two functions
(`create_filesystem` and `main`) into pure Lean functions.  Python effects
are made explicit:

* a CSV row (a Python dict) is an association list of column name / cell;
  dict access that can raise `KeyError` returns `Except`;
* `int(...)` / `str.strip()` are modelled by `pyInt` / `pyStrip`
  (ASCII whitespace; optional sign; digits with Python's single-underscore
  separators);
* the network is an oracle `Net` mapping the POST request the script would
  send to either an HTTP response or a transport failure
  (`requests.exceptions.RequestException`); a response carries its status,
  reason phrase, body, and `jsonBody`, the decoded value when the body is
  valid JSON (`none` makes `response.json()` raise `ValueError`);
* console output relevant to the spec (the per-row progress lines) is
  collected as a list of `Report` values; the POST requests issued are
  collected as a trace, so "how many create calls were made" is a
  statement about that trace;
* `create_filesystem` also returns the state of its `filesystem` dict
  argument after the call (explicit state passing for Python's mutable
  dicts); the source only reads from it, all writes go to the fresh
  `payload` dict, so the returned state equals the input.
-/

namespace Powerstore

/-- Python exceptions the script can raise or catch. -/
inductive PyError where
  /-- `KeyError` from a missing dict key. -/
  | keyError (key : String)
  /-- `ValueError`, e.g. from `int()` on a non-integer string or from
  `response.json()` on an undecodable body. -/
  | valueError (msg : String)
  /-- `requests.exceptions.HTTPError` raised by `raise_for_status`. -/
  | httpError (msg : String)
  /-- `requests.exceptions.RequestException`: transport-level failure. -/
  | requestException (msg : String)
deriving Repr, DecidableEq

/-- A CSV row as produced by `csv.DictReader`: an association list from
column name to cell value.  (Rows are assumed to have as many cells as the
header has columns, and duplicate column names are not modelled.) -/
abbrev Row := List (String × String)

/-- Python dict access `r[k]`: the first binding of `k`, or `KeyError`. -/
def dictGet (r : Row) (k : String) : Except PyError String :=
  match r.find? (fun kv => kv.1 == k) with
  | some kv => .ok kv.2
  | none => .error (.keyError k)

/-- The characters `str.strip()` removes (ASCII whitespace). -/
def isPySpace (c : Char) : Bool :=
  c = ' ' || c = '\t' || c = '\n' || c = '\r' || c = Char.ofNat 11 || c = Char.ofNat 12

/-- `str.strip()` on a character list. -/
def pyStripList (l : List Char) : List Char :=
  ((l.dropWhile isPySpace).reverse.dropWhile isPySpace).reverse

/-- Python `str.strip()` (no argument): drop leading and trailing whitespace. -/
def pyStrip (s : String) : String :=
  String.mk (pyStripList s.data)

/-- After the first digit of an `int()` literal: digits, with single
underscores allowed only between digits (Python 3 numeric literals). -/
def intTail : List Char → Bool
  | [] => true
  | '_' :: [] => false
  | '_' :: d :: rest => d.isDigit && intTail (d :: rest)
  | c :: rest => c.isDigit && intTail rest

/-- A valid `int()` digit sequence: nonempty, starts with a digit, single
underscores only between digits. -/
def intDigitsValid : List Char → Bool
  | [] => false
  | c :: rest => c.isDigit && intTail rest

/-- Numeric value of a digit sequence, ignoring underscore separators. -/
def digitsValue (cs : List Char) : Nat :=
  cs.foldl (fun n c => if c = '_' then n else 10 * n + (c.toNat - 48)) 0

/-- Python `int(s)` (base 10): strip whitespace, optional sign, digits with
underscore separators; raises `ValueError` otherwise. -/
def pyInt (s : String) : Except PyError Int :=
  match pyStripList s.data with
  | '+' :: rest =>
      if intDigitsValid rest then .ok (Int.ofNat (digitsValue rest))
      else .error (.valueError ("invalid literal for int() with base 10: " ++ s))
  | '-' :: rest =>
      if intDigitsValid rest then .ok (-(Int.ofNat (digitsValue rest)))
      else .error (.valueError ("invalid literal for int() with base 10: " ++ s))
  | cs =>
      if intDigitsValid cs then .ok (Int.ofNat (digitsValue cs))
      else .error (.valueError ("invalid literal for int() with base 10: " ++ s))

/-- The JSON payload the script builds (lines 19-28).  `Quota := none`
means the `"Quota"` key is absent from the payload dict. -/
structure Payload where
  NAS_Name : String
  NAS_IP : String
  FileSystemName : String
  Size : Int
  Protocol : String
  Quota : Option Int
deriving Repr, DecidableEq

/-- One HTTP response as observed by the script.  `jsonBody` is the decoded
value when `body` is valid JSON; `none` means `response.json()` raises. -/
structure HttpResponse where
  status : Nat
  reason : String
  body : String
  jsonBody : Option String
deriving Repr, DecidableEq

/-- What `requests.post` yields: a response, or a transport-level failure
(connection refused, timeout, ...). -/
inductive HttpResult where
  | response (r : HttpResponse)
  | transportFailure (msg : String)
deriving Repr, DecidableEq

/-- The POST request the script sends: URL, JSON payload, basic-auth
credentials.  (The constant `Content-Type: application/json` header and
`verify=False` are fixed in the source and carry no information.) -/
structure PostRequest where
  url : String
  payload : Payload
  username : String
  password : String
deriving Repr, DecidableEq

/-- The network oracle: what the array returns for a given POST request. -/
def Net := PostRequest → HttpResult

/-- The request `create_filesystem` sends for a given payload. -/
def mkReq (ps_ip username password : String) (payload : Payload) : PostRequest :=
  { url := "https://" ++ ps_ip ++ "/api/v1/filesystems"
    payload := payload
    username := username
    password := password }

/-- Payload construction, lines 19-28 of the source, in Python evaluation
order: the dict literal looks up `NAS_Name`, `NAS_IP`, `FileSystemName`,
`int(Size)`, `Protocol`; then `if filesystem["Quota"].strip():` adds
`"Quota": int(filesystem["Quota"])` only when the stripped quota cell is
non-empty (Python truthiness of a string). -/
def buildPayload (filesystem : Row) : Except PyError Payload :=
  match dictGet filesystem "NAS_Name" with
  | .error e => .error e
  | .ok nasName =>
  match dictGet filesystem "NAS_IP" with
  | .error e => .error e
  | .ok nasIp =>
  match dictGet filesystem "FileSystemName" with
  | .error e => .error e
  | .ok fsName =>
  match dictGet filesystem "Size" with
  | .error e => .error e
  | .ok sizeStr =>
  match pyInt sizeStr with
  | .error e => .error e
  | .ok size =>
  match dictGet filesystem "Protocol" with
  | .error e => .error e
  | .ok protocol =>
  match dictGet filesystem "Quota" with
  | .error e => .error e
  | .ok quotaStr =>
  if pyStrip quotaStr = "" then
    .ok { NAS_Name := nasName, NAS_IP := nasIp, FileSystemName := fsName,
          Size := size, Protocol := protocol, Quota := none }
  else
    match pyInt quotaStr with
    | .error e => .error e
    | .ok q =>
      .ok { NAS_Name := nasName, NAS_IP := nasIp, FileSystemName := fsName,
            Size := size, Protocol := protocol, Quota := some q }

/-- `response.raise_for_status()` of the `requests` library: raises
`HTTPError` exactly for statuses 400-499 ("Client Error") and 500-599
("Server Error"); any other status passes. -/
def raise_for_status (url : String) (r : HttpResponse) : Except PyError Unit :=
  if 400 ≤ r.status ∧ r.status < 500 then
    .error (.httpError (toString r.status ++ " Client Error: " ++ r.reason ++ " for url: " ++ url))
  else if 500 ≤ r.status ∧ r.status < 600 then
    .error (.httpError (toString r.status ++ " Server Error: " ++ r.reason ++ " for url: " ++ url))
  else
    .ok ()

/-- Lines 32-33 of the source applied to a received response:
`raise_for_status()` then `response.json()`. -/
def handleResponse (url : String) (r : HttpResponse) : Except PyError String :=
  match raise_for_status url r with
  | .error e => .error e
  | .ok _ =>
    match r.jsonBody with
    | none => .error (.valueError "Expecting value: line 1 column 1 (char 0)")
    | some v => .ok v

/-- `create_filesystem(ps_ip, username, password, filesystem)`, lines 10-33.
Returns the result (`.ok` with the decoded response, or the raised
exception), the state of the `filesystem` dict after the call (explicit
state passing; the source never writes into it), and the trace of POST
requests issued (empty when payload construction raised first). -/
def create_filesystem (net : Net) (ps_ip username password : String) (filesystem : Row) :
    Except PyError String × Row × List PostRequest :=
  let url := "https://" ++ ps_ip ++ "/api/v1/filesystems"
  match buildPayload filesystem with
  | .error e => (.error e, filesystem, [])
  | .ok payload =>
    let req := mkReq ps_ip username password payload
    match net req with
    | .transportFailure msg => (.error (.requestException msg), filesystem, [req])
    | .response r => (handleResponse url r, filesystem, [req])

/-- The outcome printed for one row by the driver loop: the `Completed`
line with the API response, or the `Error` line with the caught exception. -/
inductive Outcome where
  | completed (result : String)
  | errored (e : PyError)
deriving Repr, DecidableEq

/-- The progress lines printed for one row: `[index/total]` with the row's
`FileSystemName` and the outcome. -/
structure Report where
  index : Nat
  total : Nat
  fsName : String
  outcome : Outcome
deriving Repr, DecidableEq

/-- The loop body of `main`, lines 55-62, starting at row ordinal `index`
(Python's `enumerate(filesystems, start=1)` makes the first call use 1).
`fs["FileSystemName"]` on line 56 sits outside the `try`, so a row missing
that key raises an uncaught `KeyError` that halts the whole run (third
component `some e`); every exception raised inside the `try` is caught and
turned into an error report for that row only. -/
def processRowsAux (net : Net) (ps_ip username password : String) (total : Nat) :
    Nat → List Row → List Report × List PostRequest × Option PyError
  | _, [] => ([], [], none)
  | index, fs :: rest =>
    match dictGet fs "FileSystemName" with
    | .error e => ([], [], some e)
    | .ok fsName =>
      let c := create_filesystem net ps_ip username password fs
      let tail := processRowsAux net ps_ip username password total (index + 1) rest
      ({ index := index, total := total, fsName := fsName,
         outcome := match c.1 with
                    | .ok v => Outcome.completed v
                    | .error e => Outcome.errored e } :: tail.1,
       c.2.2 ++ tail.2.1, tail.2.2)

/-- The CSV file contents after `csv` has split them: the header row and the
data rows. -/
structure CsvFile where
  header : List String
  rows : List (List String)
deriving Repr, DecidableEq

/-- `list(csv.DictReader(csvfile))`: each data row becomes a dict pairing
the header's column names with the row's cells in order. -/
def dictReader (f : CsvFile) : List Row :=
  f.rows.map (fun r => f.header.zip r)

/-- Everything observable about one run of `main`: whether the
missing-file message was printed (and the run aborted), the per-row
progress reports, the POST requests issued, and the uncaught exception
that halted the run, if any. -/
structure RunResult where
  fileNotFound : Bool
  reports : List Report
  posts : List PostRequest
  halt : Option PyError
deriving Repr, DecidableEq

/-- `main()`, lines 35-62.  The interactive prompts become the `ps_ip`,
`username`, `password` arguments; the CSV file is `none` when opening
`file_systems.csv` raises `FileNotFoundError`, in which case the script
prints the error message and returns before touching any row. -/
def main (net : Net) (ps_ip username password : String) (file : Option CsvFile) : RunResult :=
  match file with
  | none => { fileNotFound := true, reports := [], posts := [], halt := none }
  | some f =>
    let filesystems := dictReader f
    let total := filesystems.length
    let out := processRowsAux net ps_ip username password total 1 filesystems
    { fileNotFound := false, reports := out.1, posts := out.2.1, halt := out.2.2 }

/-- Equality of `Except` values is decidable (needed to check concrete
runs of the embedding by `decide`). -/
instance exceptDecEq {ε α : Type} [DecidableEq ε] [DecidableEq α] :
    DecidableEq (Except ε α) := fun x y =>
  match x, y with
  | .ok a, .ok b =>
      if h : a = b then isTrue (by rw [h])
      else isFalse (fun hc => h (Except.ok.inj hc))
  | .ok _, .error _ => isFalse (fun hc => Except.noConfusion hc)
  | .error _, .ok _ => isFalse (fun hc => Except.noConfusion hc)
  | .error d, .error e =>
      if h : d = e then isTrue (by rw [h])
      else isFalse (fun hc => h (Except.error.inj hc))

/-- `Bool`-valued success test for `Except` (used to state decidable
hypotheses about rows). -/
def exOk {α : Type} : Except PyError α → Bool
  | .ok _ => true
  | .error _ => false

/-- The `FileSystemName` cell of a row, defaulting to `""` when the key is
absent (projection used only to state theorems about report order). -/
def getFsName (r : Row) : String :=
  match dictGet r "FileSystemName" with
  | .ok v => v
  | .error _ => ""

/-! ### Concrete fixtures (networks, rows, CSV files) used by witnesses and
counterexamples -/

/-- An array that answers every POST with `201 Created` and a decodable body. -/
def netOK : Net := fun _ =>
  .response { status := 201, reason := "Created", body := "ok", jsonBody := some "ok" }

/-- An array that answers every POST with `304 Not Modified` (a status that
is neither 2xx nor an error for `raise_for_status`). -/
def net304 : Net := fun _ =>
  .response { status := 304, reason := "Not Modified", body := "ok", jsonBody := some "ok" }

/-- An array that answers `200 OK` with a body that is not valid JSON. -/
def net200bad : Net := fun _ =>
  .response { status := 200, reason := "OK", body := "<html>", jsonBody := none }

/-- An array that answers every POST with `500`. -/
def net500 : Net := fun _ =>
  .response { status := 500, reason := "Internal Server Error", body := "boom", jsonBody := some "boom" }

/-- A network where every POST fails at transport level. -/
def netDown : Net := fun _ => .transportFailure "connection refused"

/-- A well-formed row with a blank quota. -/
def rowGood : Row :=
  [("NAS_Name", "nas1"), ("NAS_IP", "10.0.0.1"), ("FileSystemName", "fs1"),
   ("Size", "100"), ("Protocol", "NFS"), ("Quota", "")]

/-- The payload `rowGood` produces. -/
def payloadGood : Payload :=
  { NAS_Name := "nas1", NAS_IP := "10.0.0.1", FileSystemName := "fs1",
    Size := 100, Protocol := "NFS", Quota := none }

/-- Same as `rowGood` except `Size` is `" 100"` (leading space). -/
def rowSizeSpace : Row :=
  [("NAS_Name", "nas1"), ("NAS_IP", "10.0.0.1"), ("FileSystemName", "fs1"),
   ("Size", " 100"), ("Protocol", "NFS"), ("Quota", "")]

/-- A well-formed row with quota `"5"`. -/
def rowQuota5 : Row :=
  [("NAS_Name", "nas1"), ("NAS_IP", "10.0.0.1"), ("FileSystemName", "fs1"),
   ("Size", "100"), ("Protocol", "NFS"), ("Quota", "5")]

/-- The payload `rowQuota5` produces. -/
def payloadQuota5 : Payload :=
  { NAS_Name := "nas1", NAS_IP := "10.0.0.1", FileSystemName := "fs1",
    Size := 100, Protocol := "NFS", Quota := some 5 }

/-- Same as `rowQuota5` except the quota cell is `" 5 "`. -/
def rowQuota5Space : Row :=
  [("NAS_Name", "nas1"), ("NAS_IP", "10.0.0.1"), ("FileSystemName", "fs1"),
   ("Size", "100"), ("Protocol", "NFS"), ("Quota", " 5 ")]

/-- A row whose quota is non-blank but not an integer string. -/
def rowBadQuota : Row :=
  [("NAS_Name", "nas1"), ("NAS_IP", "10.0.0.1"), ("FileSystemName", "fs1"),
   ("Size", "100"), ("Protocol", "NFS"), ("Quota", "abc")]

/-- A CSV whose header has exactly the five columns the spec calls
required — note it lacks `NAS_IP`, which the code also reads. -/
def fileC1 : CsvFile :=
  { header := ["NAS_Name", "FileSystemName", "Size", "Protocol", "Quota"],
    rows := [["nas1", "fs1", "100", "NFS", ""]] }

/-- A CSV whose header lacks `FileSystemName`, with two data rows. -/
def fileNoFsName : CsvFile :=
  { header := ["NAS_Name", "NAS_IP", "Size", "Protocol", "Quota"],
    rows := [["nas1", "10.0.0.1", "100", "NFS", ""],
             ["nas2", "10.0.0.1", "200", "SMB", ""]] }

/-- A fully well-formed CSV with two data rows. -/
def fileGood : CsvFile :=
  { header := ["NAS_Name", "NAS_IP", "FileSystemName", "Size", "Protocol", "Quota"],
    rows := [["nas1", "10.0.0.1", "fs1", "100", "NFS", ""],
             ["nas2", "10.0.0.1", "fs2", "200", "SMB", "5"]] }

/-- A CSV whose first row has a non-integer `Size` (a per-row error) and
whose second row is fine. -/
def fileMixed : CsvFile :=
  { header := ["NAS_Name", "NAS_IP", "FileSystemName", "Size", "Protocol", "Quota"],
    rows := [["nas1", "10.0.0.1", "fs1", "abc", "NFS", ""],
             ["nas2", "10.0.0.1", "fs2", "200", "SMB", ""]] }

/-- The cells of the one data row of `fileUnchecked`. -/
def rowCellsUnchecked : List String := ["", "10.0.0.1", "fs1", "-5", "NFS", ""]

/-- A CSV whose one data row has an empty `NAS_Name` and a negative `Size`. -/
def fileUnchecked : CsvFile :=
  { header := ["NAS_Name", "NAS_IP", "FileSystemName", "Size", "Protocol", "Quota"],
    rows := [rowCellsUnchecked] }

/-- The record the loader produces for `fileUnchecked`'s data row. -/
def rowUnchecked : Row :=
  [("NAS_Name", ""), ("NAS_IP", "10.0.0.1"), ("FileSystemName", "fs1"),
   ("Size", "-5"), ("Protocol", "NFS"), ("Quota", "")]

/-! ### Helper lemmas -/

/-- Where each field of a successfully built payload comes from: the four
string fields are the row's cells verbatim, `Size` is `int()` of the size
cell, and `Quota` is present exactly when the quota cell has a non-blank
strip, in which case it is `int()` of that cell. -/
theorem buildPayload_fields (fs : Row) (p : Payload) (hp : buildPayload fs = .ok p) :
    dictGet fs "NAS_Name" = .ok p.NAS_Name ∧
    dictGet fs "NAS_IP" = .ok p.NAS_IP ∧
    dictGet fs "FileSystemName" = .ok p.FileSystemName ∧
    (∃ s, dictGet fs "Size" = .ok s ∧ pyInt s = .ok p.Size) ∧
    dictGet fs "Protocol" = .ok p.Protocol ∧
    (∃ q, dictGet fs "Quota" = .ok q ∧
      ((pyStrip q = "" ∧ p.Quota = none) ∨
       (pyStrip q ≠ "" ∧ ∃ n, pyInt q = .ok n ∧ p.Quota = some n))) := by
  cases h1 : dictGet fs "NAS_Name" with
  | error e => simp [buildPayload, h1] at hp
  | ok nasName =>
    cases h2 : dictGet fs "NAS_IP" with
    | error e => simp [buildPayload, h1, h2] at hp
    | ok nasIp =>
      cases h3 : dictGet fs "FileSystemName" with
      | error e => simp [buildPayload, h1, h2, h3] at hp
      | ok fsName =>
        cases h4 : dictGet fs "Size" with
        | error e => simp [buildPayload, h1, h2, h3, h4] at hp
        | ok sizeStr =>
          cases h5 : pyInt sizeStr with
          | error e => simp [buildPayload, h1, h2, h3, h4, h5] at hp
          | ok size =>
            cases h6 : dictGet fs "Protocol" with
            | error e => simp [buildPayload, h1, h2, h3, h4, h5, h6] at hp
            | ok protocol =>
              cases h7 : dictGet fs "Quota" with
              | error e => simp [buildPayload, h1, h2, h3, h4, h5, h6, h7] at hp
              | ok quotaStr =>
                by_cases hq : pyStrip quotaStr = ""
                · have hp2 : Payload.mk nasName nasIp fsName size protocol none = p := by
                    simpa [buildPayload, h1, h2, h3, h4, h5, h6, h7, hq] using hp
                  subst hp2
                  exact ⟨rfl, rfl, rfl, ⟨sizeStr, rfl, h5⟩, rfl,
                    ⟨quotaStr, rfl, Or.inl ⟨hq, rfl⟩⟩⟩
                · cases h8 : pyInt quotaStr with
                  | error e => simp [buildPayload, h1, h2, h3, h4, h5, h6, h7, hq, h8] at hp
                  | ok q =>
                    have hp2 : Payload.mk nasName nasIp fsName size protocol (some q) = p := by
                      simpa [buildPayload, h1, h2, h3, h4, h5, h6, h7, hq, h8] using hp
                    subst hp2
                    exact ⟨rfl, rfl, rfl, ⟨sizeStr, rfl, h5⟩, rfl,
                      ⟨quotaStr, rfl, Or.inr ⟨hq, q, h8, rfl⟩⟩⟩

/-- When payload construction succeeds, exactly one POST is issued. -/
theorem create_posts_of_ok (net : Net) (ps u pw : String) (fs : Row) (p : Payload)
    (hp : buildPayload fs = .ok p) :
    (create_filesystem net ps u pw fs).2.2 = [mkReq ps u pw p] := by
  cases hn : net (mkReq ps u pw p) <;> simp [create_filesystem, hp, hn]

/-- When payload construction raises, `create_filesystem` re-raises that
exception, leaves the row alone and issues no POST. -/
theorem create_of_error (net : Net) (ps u pw : String) (fs : Row) (e : PyError)
    (he : buildPayload fs = .error e) :
    create_filesystem net ps u pw fs = (.error e, fs, []) := by
  simp [create_filesystem, he]

/-- `create_filesystem` never issues more than one POST (no retry). -/
theorem create_posts_le_one (net : Net) (ps u pw : String) (fs : Row) :
    (create_filesystem net ps u pw fs).2.2.length ≤ 1 := by
  cases hb : buildPayload fs with
  | error e => simp [create_filesystem, hb]
  | ok p => cases hn : net (mkReq ps u pw p) <;> simp [create_filesystem, hb, hn]

/-- If the stripped string is empty, `int()` on it raises. -/
theorem pyInt_of_blank (s : String) (h : pyStrip s = "") : ∀ n : Int, pyInt s ≠ .ok n := by
  intro n hn
  have hl : pyStripList s.data = [] := by
    have h2 := congrArg String.data h
    simpa [pyStrip] using h2
  simp [pyInt, hl, intDigitsValid] at hn

/-- The loader is `list(csv.DictReader ...)`: its records have length equal
to the number of data rows. -/
theorem dictReader_length (f : CsvFile) : (dictReader f).length = f.rows.length := by
  simp [dictReader]

/-- `raise_for_status` raises for every status in `[400, 600)`. -/
theorem raise_for_status_fail (url : String) (r : HttpResponse)
    (h4 : 400 ≤ r.status) (h6 : r.status < 600) :
    ∃ m, raise_for_status url r = .error (.httpError m) := by
  unfold raise_for_status
  by_cases h5 : r.status < 500
  · rw [if_pos ⟨h4, h5⟩]
    exact ⟨_, rfl⟩
  · have hA : ¬(400 ≤ r.status ∧ r.status < 500) := fun hc => h5 hc.2
    rw [if_neg hA, if_pos ⟨by omega, h6⟩]
    exact ⟨_, rfl⟩

/-- `raise_for_status` passes for every status outside `[400, 600)`. -/
theorem raise_for_status_pass (url : String) (r : HttpResponse)
    (h : ¬(400 ≤ r.status ∧ r.status < 600)) :
    raise_for_status url r = .ok () := by
  unfold raise_for_status
  have hA : ¬(400 ≤ r.status ∧ r.status < 500) := fun hc => h ⟨hc.1, by omega⟩
  have hB : ¬(500 ≤ r.status ∧ r.status < 600) := fun hc => h ⟨by omega, hc.2⟩
  rw [if_neg hA, if_neg hB]

/-- A non-error status with a decodable body yields the decoded value. -/
theorem handleResponse_ok (url : String) (r : HttpResponse) (v : String)
    (h : ¬(400 ≤ r.status ∧ r.status < 600)) (hv : r.jsonBody = some v) :
    handleResponse url r = .ok v := by
  simp [handleResponse, raise_for_status_pass url r h, hv]

/-- A non-error status with an undecodable body makes `response.json()`
raise `ValueError`. -/
theorem handleResponse_nojson (url : String) (r : HttpResponse)
    (h : ¬(400 ≤ r.status ∧ r.status < 600)) (hv : r.jsonBody = none) :
    handleResponse url r = .error (.valueError "Expecting value: line 1 column 1 (char 0)") := by
  simp [handleResponse, raise_for_status_pass url r h, hv]

/-- A status in `[400, 600)` makes the response handling raise `HTTPError`. -/
theorem handleResponse_fail (url : String) (r : HttpResponse)
    (h4 : 400 ≤ r.status) (h6 : r.status < 600) :
    ∃ m, handleResponse url r = .error (.httpError m) := by
  obtain ⟨m, hm⟩ := raise_for_status_fail url r h4 h6
  exact ⟨m, by simp [handleResponse, hm]⟩

/-- With a successfully built payload, the call's result is the handling of
the response the network returns for the script's request. -/
theorem create_result_of_response (net : Net) (ps u pw : String) (fs : Row) (p : Payload)
    (r : HttpResponse) (hp : buildPayload fs = .ok p)
    (hr : net (mkReq ps u pw p) = .response r) :
    (create_filesystem net ps u pw fs).1 =
      handleResponse ("https://" ++ ps ++ "/api/v1/filesystems") r := by
  simp [create_filesystem, hp, hr]

/-- Master lemma about the driver loop: when every row has a
`FileSystemName` entry, the loop never halts, and the reports list the rows
in order with consecutive ordinals starting at the given one, each carrying
the fixed total. -/
theorem processRowsAux_ok (net : Net) (ps u pw : String) (total : Nat) (rows : List Row) :
    ∀ idx : Nat,
      (∀ r ∈ rows, exOk (dictGet r "FileSystemName") = true) →
      ((processRowsAux net ps u pw total idx rows).1.map Report.index
          = List.range' idx rows.length) ∧
      ((processRowsAux net ps u pw total idx rows).1.map Report.fsName
          = rows.map getFsName) ∧
      (∀ rep ∈ (processRowsAux net ps u pw total idx rows).1, rep.total = total) ∧
      ((processRowsAux net ps u pw total idx rows).2.2 = none) := by
  induction rows with
  | nil =>
    intro idx h
    simp [processRowsAux]
  | cons fs rest ih =>
    intro idx h
    have hfs := h fs (List.mem_cons_self fs rest)
    cases hdg : dictGet fs "FileSystemName" with
    | error e =>
      rw [hdg] at hfs
      simp [exOk] at hfs
    | ok name =>
      have ihr := ih (idx + 1) (fun r hr => h r (List.mem_cons_of_mem fs hr))
      refine ⟨?_, ?_, ?_, ?_⟩
      · simp [processRowsAux, hdg, List.range'_succ, ihr.1]
      · simp [processRowsAux, hdg, getFsName, ihr.2.1]
      · intro rep hrep
        simp [processRowsAux, hdg] at hrep
        rcases hrep with hrep | hrep
        · rw [hrep]
        · exact ihr.2.2.1 rep hrep
      · simp [processRowsAux, hdg, ihr.2.2.2]

/-- Master lemma about the POST trace: when every row's payload builds,
the loop issues exactly one POST per row. -/
theorem processRowsAux_posts (net : Net) (ps u pw : String) (total : Nat) (rows : List Row) :
    ∀ idx : Nat,
      (∀ r ∈ rows, exOk (buildPayload r) = true) →
      (processRowsAux net ps u pw total idx rows).2.1.length = rows.length := by
  induction rows with
  | nil =>
    intro idx h
    simp [processRowsAux]
  | cons fs rest ih =>
    intro idx h
    have hb := h fs (List.mem_cons_self fs rest)
    cases hbp : buildPayload fs with
    | error e =>
      rw [hbp] at hb
      simp [exOk] at hb
    | ok p =>
      have hfs : dictGet fs "FileSystemName" = .ok p.FileSystemName :=
        (buildPayload_fields fs p hbp).2.2.1
      have hposts := create_posts_of_ok net ps u pw fs p hbp
      have ihr := ih (idx + 1) (fun r hr => h r (List.mem_cons_of_mem fs hr))
      simp [processRowsAux, hfs, hposts, ihr]

/-- Looking a column name up in a zipped record returns the cell at that
column's position, provided column names are distinct. -/
theorem dictGet_zip (header : List String) (hnd : header.Nodup) :
    ∀ (row : List String) (j : Nat) (k v : String),
      header.get? j = some k → row.get? j = some v →
      dictGet (header.zip row) k = .ok v := by
  induction header with
  | nil =>
    intro row j k v hk hv
    simp at hk
  | cons h0 hs ih =>
    intro row j k v hk hv
    cases row with
    | nil => cases j <;> simp at hv
    | cons r0 rs =>
      cases j with
      | zero =>
        simp at hk hv
        subst hk
        subst hv
        simp [dictGet, List.find?]
      | succ j2 =>
        have hk2 : hs.get? j2 = some k := by simpa using hk
        have hv2 : rs.get? j2 = some v := by simpa using hv
        have hkmem : k ∈ hs := List.get?_mem hk2
        have hne : (h0 == k) = false := by
          have hneq : h0 ≠ k := fun he => (List.nodup_cons.mp hnd).1 (he ▸ hkmem)
          simpa using hneq
        have := ih (List.nodup_cons.mp hnd).2 rs j2 k v hk2 hv2
        simpa [dictGet, List.find?, hne] using this

/-! ### Claim C1 -/

/-- Claim C1, counterexample: a CSV whose header has exactly the columns
the spec calls required (`NAS_Name, FileSystemName, Size, Protocol, Quota`)
and one data row produces zero POSTs, not one: the payload build reads the
`NAS_IP` column too and raises `KeyError` before the POST. -/
theorem missing_nas_ip_column_no_post :
    fileC1.header = ["NAS_Name", "FileSystemName", "Size", "Protocol", "Quota"] ∧
    fileC1.rows.length = 1 ∧
    (main netOK "10.0.0.1" "admin" "pw" (some fileC1)).posts = [] :=
  ⟨rfl, rfl, rfl⟩

/-- Claim C1 (amended): for every CSV input on which every loaded row's
payload construction succeeds — which requires the `NAS_IP` column besides
the five listed ones, an integer `Size` and a blank-or-integer `Quota` in
every row — the driver issues the POST exactly once per row, `N` times in
total; and on any row whatsoever at most one POST is issued (no retry). -/
theorem driver_posts_once_per_valid_row (net : Net) (ps u pw : String) (f : CsvFile)
    (h : ∀ r ∈ dictReader f, exOk (buildPayload r) = true) :
    (main net ps u pw (some f)).posts.length = f.rows.length ∧
    ∀ fs : Row, (create_filesystem net ps u pw fs).2.2.length ≤ 1 := by
  constructor
  · have hm := processRowsAux_posts net ps u pw (dictReader f).length (dictReader f) 1 h
    simpa [main, dictReader_length] using hm
  · intro fs
    exact create_posts_le_one net ps u pw fs

/-- Witness for C1's amended theorem on a concrete two-row CSV. -/
theorem driver_posts_once_per_valid_row_witness :
    (∀ r ∈ dictReader fileGood, exOk (buildPayload r) = true) ∧
    (main netOK "10.0.0.1" "admin" "pw" (some fileGood)).posts.length = fileGood.rows.length :=
  ⟨by decide,
   (driver_posts_once_per_valid_row netOK "10.0.0.1" "admin" "pw" fileGood (by decide)).1⟩

/-! ### Claim C2 -/

/-- Claim C2, counterexample: on a two-row CSV whose header lacks
`FileSystemName`, the first row's `KeyError` is raised by
`fs["FileSystemName"]` outside the `try`, so the run halts with no row
reported — the second row is neither reported nor attempted. -/
theorem missing_fsname_column_halts_run :
    (main netOK "10.0.0.1" "admin" "pw" (some fileNoFsName)).halt
        = some (.keyError "FileSystemName") ∧
    (main netOK "10.0.0.1" "admin" "pw" (some fileNoFsName)).reports = [] ∧
    fileNoFsName.rows.length = 2 :=
  ⟨rfl, rfl, rfl⟩

/-- Claim C2 (amended): provided every loaded row has a `FileSystemName`
entry, no per-row failure halts the run: every exception raised while
building the payload or performing the call is caught for that row alone,
the loop never halts, and every row is reported. -/
theorem per_row_errors_do_not_halt (net : Net) (ps u pw : String) (f : CsvFile)
    (h : ∀ r ∈ dictReader f, exOk (dictGet r "FileSystemName") = true) :
    (main net ps u pw (some f)).halt = none ∧
    (main net ps u pw (some f)).reports.length = f.rows.length := by
  have hm := processRowsAux_ok net ps u pw (dictReader f).length (dictReader f) 1 h
  constructor
  · simpa [main] using hm.2.2.2
  · have hlen := congrArg List.length hm.1
    simp at hlen
    simpa [main, dictReader_length] using hlen

/-- Witness for C2's amended theorem: the first row errors (non-integer
`Size`) yet the run does not halt and both rows are reported. -/
theorem per_row_errors_do_not_halt_witness :
    (∀ r ∈ dictReader fileMixed, exOk (dictGet r "FileSystemName") = true) ∧
    (main netOK "10.0.0.1" "admin" "pw" (some fileMixed)).halt = none ∧
    (main netOK "10.0.0.1" "admin" "pw" (some fileMixed)).reports.length
        = fileMixed.rows.length :=
  ⟨by decide,
   (per_row_errors_do_not_halt netOK "10.0.0.1" "admin" "pw" fileMixed (by decide)).1,
   (per_row_errors_do_not_halt netOK "10.0.0.1" "admin" "pw" fileMixed (by decide)).2⟩

/-! ### Claim C3 -/

/-- Claim C3: for every row whose payload is constructed, a blank or
whitespace-only `Quota` cell leaves the payload without a quota key, and an
integer-string `Quota` cell puts that integer in the payload. -/
theorem quota_blank_omitted_integer_included (fs : Row) (p : Payload) (q : String)
    (hq : dictGet fs "Quota" = .ok q) (hp : buildPayload fs = .ok p) :
    (pyStrip q = "" → p.Quota = none) ∧
    (∀ n : Int, pyInt q = .ok n → p.Quota = some n) := by
  obtain ⟨-, -, -, -, -, q2, hq3, hcase⟩ := buildPayload_fields fs p hp
  rw [hq] at hq3
  have hqq : q = q2 := by simpa using hq3
  subst hqq
  constructor
  · intro hblank
    rcases hcase with ⟨-, hnone⟩ | ⟨hnb, -⟩
    · exact hnone
    · exact absurd hblank hnb
  · intro n hn
    rcases hcase with ⟨hb, -⟩ | ⟨-, m, hm, hsome⟩
    · exact absurd hn (pyInt_of_blank q hb n)
    · rw [hm] at hn
      have hmn : m = n := by simpa using hn
      rw [hsome, hmn]

/-- Witness for C3 on concrete rows: blank quota gives no quota key,
quota `"5"` gives the integer 5. -/
theorem quota_blank_omitted_integer_included_witness :
    payloadGood.Quota = none ∧ payloadQuota5.Quota = some 5 :=
  ⟨(quota_blank_omitted_integer_included rowGood payloadGood "" (by decide) (by decide)).1 rfl,
   (quota_blank_omitted_integer_included rowQuota5 payloadQuota5 "5" (by decide) (by decide)).2
     5 (by decide)⟩

/-! ### Claim C4 -/

/-- Claim C4, counterexample: a `304` response (not 2xx) passes
`raise_for_status` and yields a success outcome; and a `200` response (2xx)
whose body is not valid JSON yields a failure outcome from
`response.json()` — both directions of the claim fail as stated. -/
theorem status_304_yields_success :
    (create_filesystem net304 "10.0.0.1" "admin" "pw" rowGood).1 = .ok "ok" ∧
    (create_filesystem net200bad "10.0.0.1" "admin" "pw" rowGood).1 =
      .error (.valueError "Expecting value: line 1 column 1 (char 0)") :=
  ⟨rfl, rfl⟩

/-- Claim C4 (amended): for every create call, a transport failure yields a
failure outcome with the exception text; a response with status in
`[400, 600)` yields a failure outcome (`HTTPError`); any other status
yields a success outcome with the decoded body when the body is valid
JSON, and a `ValueError` failure outcome when it is not. -/
theorem create_outcome_classification (net : Net) (ps u pw : String) (fs : Row) (p : Payload)
    (hp : buildPayload fs = .ok p) :
    (∀ m, net (mkReq ps u pw p) = .transportFailure m →
        (create_filesystem net ps u pw fs).1 = .error (.requestException m)) ∧
    (∀ r, net (mkReq ps u pw p) = .response r → 400 ≤ r.status → r.status < 600 →
        ∃ m, (create_filesystem net ps u pw fs).1 = .error (.httpError m)) ∧
    (∀ r v, net (mkReq ps u pw p) = .response r → ¬(400 ≤ r.status ∧ r.status < 600) →
        r.jsonBody = some v → (create_filesystem net ps u pw fs).1 = .ok v) ∧
    (∀ r, net (mkReq ps u pw p) = .response r → ¬(400 ≤ r.status ∧ r.status < 600) →
        r.jsonBody = none →
        (create_filesystem net ps u pw fs).1 =
          .error (.valueError "Expecting value: line 1 column 1 (char 0)")) := by
  refine ⟨?_, ?_, ?_, ?_⟩
  · intro m hm
    simp [create_filesystem, hp, hm]
  · intro r hr h4 h6
    obtain ⟨m, hm⟩ := handleResponse_fail ("https://" ++ ps ++ "/api/v1/filesystems") r h4 h6
    exact ⟨m, by rw [create_result_of_response net ps u pw fs p r hp hr, hm]⟩
  · intro r v hr hst hv
    rw [create_result_of_response net ps u pw fs p r hp hr]
    exact handleResponse_ok _ r v hst hv
  · intro r hr hst hv
    rw [create_result_of_response net ps u pw fs p r hp hr]
    exact handleResponse_nojson _ r hst hv

/-- Witness for C4's amended theorem at concrete networks: a transport
failure, a `201` success, and a `500` HTTP error. -/
theorem create_outcome_classification_witness :
    (create_filesystem netDown "10.0.0.1" "admin" "pw" rowGood).1
        = .error (.requestException "connection refused") ∧
    (create_filesystem netOK "10.0.0.1" "admin" "pw" rowGood).1 = .ok "ok" ∧
    (∃ m, (create_filesystem net500 "10.0.0.1" "admin" "pw" rowGood).1
        = .error (.httpError m)) :=
  ⟨(create_outcome_classification netDown "10.0.0.1" "admin" "pw" rowGood payloadGood
      (by decide)).1 "connection refused" rfl,
   (create_outcome_classification netOK "10.0.0.1" "admin" "pw" rowGood payloadGood
      (by decide)).2.2.1
      { status := 201, reason := "Created", body := "ok", jsonBody := some "ok" }
      "ok" rfl (by decide) rfl,
   (create_outcome_classification net500 "10.0.0.1" "admin" "pw" rowGood payloadGood
      (by decide)).2.1
      { status := 500, reason := "Internal Server Error", body := "boom", jsonBody := some "boom" }
      rfl (by decide) (by decide)⟩

/-! ### Claim C5 -/

/-- Claim C5: when the input CSV file does not exist, the run prints the
missing-file message and returns before any row is touched: no report, no
POST, no uncaught exception. -/
theorem missing_file_aborts_no_posts (net : Net) (ps u pw : String) :
    main net ps u pw none =
      { fileNotFound := true, reports := [], posts := [], halt := none } :=
  rfl

/-! ### Claim C6 -/

/-- Claim C6: provided every loaded row has a `FileSystemName` entry (so no
uncaught `KeyError` cuts the loop short), the rows are processed in input
order and the reports carry exactly the ordinals `1..N` in that order,
each with the total row count. -/
theorem reports_ordinals_in_order (net : Net) (ps u pw : String) (f : CsvFile)
    (h : ∀ r ∈ dictReader f, exOk (dictGet r "FileSystemName") = true) :
    (main net ps u pw (some f)).reports.map Report.index = List.range' 1 f.rows.length ∧
    (main net ps u pw (some f)).reports.map Report.fsName = (dictReader f).map getFsName ∧
    ∀ rep ∈ (main net ps u pw (some f)).reports, rep.total = f.rows.length := by
  have hm := processRowsAux_ok net ps u pw (dictReader f).length (dictReader f) 1 h
  refine ⟨?_, ?_, ?_⟩
  · simpa [main, dictReader_length] using hm.1
  · simpa [main] using hm.2.1
  · intro rep hrep
    have h2 := hm.2.2.1 rep (by simpa [main] using hrep)
    simpa [dictReader_length] using h2

/-- Witness for C6 on a concrete two-row CSV: the reported ordinals are
exactly `[1, 2]`. -/
theorem reports_ordinals_in_order_witness :
    (∀ r ∈ dictReader fileGood, exOk (dictGet r "FileSystemName") = true) ∧
    (main netOK "10.0.0.1" "admin" "pw" (some fileGood)).reports.map Report.index
        = List.range' 1 fileGood.rows.length :=
  ⟨by decide,
   (reports_ordinals_in_order netOK "10.0.0.1" "admin" "pw" fileGood (by decide)).1⟩

/-! ### Claim C7 -/

/-- Claim C7, counterexample: `Size` (and `Quota`) are not passed through
verbatim — they go through `int()` — so two rows with different `Size`
cells (`"100"` vs `" 100"`) and different `Quota` cells (`"5"` vs `" 5 "`)
produce identical payloads. -/
theorem size_not_passed_verbatim :
    buildPayload rowSizeSpace = buildPayload rowGood ∧
    dictGet rowSizeSpace "Size" ≠ dictGet rowGood "Size" ∧
    buildPayload rowQuota5Space = buildPayload rowQuota5 ∧
    dictGet rowQuota5Space "Quota" ≠ dictGet rowQuota5 "Quota" := by
  decide

/-- Claim C7 (amended): the payload consists of the field set
`{NAS_Name, NAS_IP, FileSystemName, Size, Protocol, optional Quota}` where
the string fields `NAS_Name`, `NAS_IP`, `FileSystemName`, `Protocol` are
the row's cells verbatim, while `Size` — and `Quota`, included exactly when
the quota cell strips non-blank — are the `int()` values of their cells. -/
theorem payload_fields_from_row (fs : Row) (p : Payload) (hp : buildPayload fs = .ok p) :
    dictGet fs "NAS_Name" = .ok p.NAS_Name ∧
    dictGet fs "NAS_IP" = .ok p.NAS_IP ∧
    dictGet fs "FileSystemName" = .ok p.FileSystemName ∧
    (∃ s, dictGet fs "Size" = .ok s ∧ pyInt s = .ok p.Size) ∧
    dictGet fs "Protocol" = .ok p.Protocol ∧
    (∃ q, dictGet fs "Quota" = .ok q ∧
      ((pyStrip q = "" ∧ p.Quota = none) ∨
       (pyStrip q ≠ "" ∧ ∃ n, pyInt q = .ok n ∧ p.Quota = some n))) :=
  buildPayload_fields fs p hp

/-- Witness for C7's amended theorem on a concrete row. -/
theorem payload_fields_from_row_witness :
    dictGet rowQuota5 "NAS_Name" = .ok payloadQuota5.NAS_Name ∧
    dictGet rowQuota5 "Protocol" = .ok payloadQuota5.Protocol :=
  ⟨(payload_fields_from_row rowQuota5 payloadQuota5 (by decide)).1,
   (payload_fields_from_row rowQuota5 payloadQuota5 (by decide)).2.2.2.2.1⟩

/-! ### Claim C8 -/

/-- Claim C8, counterexample: the loader (`list(csv.DictReader ...)`)
performs no validation — it happily produces a record with an empty
`NAS_Name` and a negative `Size`, and payload construction accepts both. -/
theorem loader_accepts_empty_name_negative_size :
    dictReader fileUnchecked = [rowUnchecked] ∧
    dictGet rowUnchecked "NAS_Name" = .ok "" ∧
    buildPayload rowUnchecked =
      .ok { NAS_Name := "", NAS_IP := "10.0.0.1", FileSystemName := "fs1",
            Size := -5, Protocol := "NFS", Quota := none } := by
  decide

/-- Claim C8 (amended): the loader validates nothing — each produced record
maps the header's column names to the row's cells verbatim (for distinct
column names), with no constraint on emptiness, sign, or parseability;
`Size`/`Quota` are parsed only later, at payload-construction time. -/
theorem loader_records_verbatim_unvalidated (f : CsvFile) (row : List String)
    (hrow : row ∈ f.rows) (hnd : f.header.Nodup) (j : Nat) (k v : String)
    (hk : f.header.get? j = some k) (hv : row.get? j = some v) :
    f.header.zip row ∈ dictReader f ∧ dictGet (f.header.zip row) k = .ok v :=
  ⟨List.mem_map_of_mem _ hrow, dictGet_zip f.header hnd row j k v hk hv⟩

/-- Witness for C8's amended theorem: the empty `NAS_Name` cell comes
through the loader verbatim. -/
theorem loader_records_verbatim_unvalidated_witness :
    fileUnchecked.header.zip rowCellsUnchecked ∈ dictReader fileUnchecked ∧
    dictGet (fileUnchecked.header.zip rowCellsUnchecked) "NAS_Name" = .ok "" :=
  loader_records_verbatim_unvalidated fileUnchecked rowCellsUnchecked (by decide) (by decide)
    0 "NAS_Name" "" rfl rfl

/-! ### Claim C9 -/

/-- Claim C9: `create_filesystem` never mutates its row argument — the
state of the `filesystem` dict after the call (second component of the
embedding, which threads the dict through explicitly) is the input itself,
on every branch; the payload is a separate, freshly built value. -/
theorem create_filesystem_preserves_row (net : Net) (ps u pw : String) (fs : Row) :
    (create_filesystem net ps u pw fs).2.1 = fs := by
  cases hb : buildPayload fs with
  | error e => simp [create_filesystem, hb]
  | ok p => cases hn : net (mkReq ps u pw p) <;> simp [create_filesystem, hb, hn]

/-! ### Claim C10 -/

/-- Claim C10: for any row (with a `FileSystemName` entry, as every row of
a well-formed CSV has) whose `Quota` cell is non-blank but not a valid
integer string, payload construction raises before any POST: the create
step issues no request, the row is reported as an error, and the loop
continues with the remaining rows unchanged. -/
theorem bad_quota_fails_before_post (net : Net) (ps u pw : String) (fs : Row)
    (name q : String)
    (hname : dictGet fs "FileSystemName" = .ok name)
    (hq : dictGet fs "Quota" = .ok q)
    (hq1 : pyStrip q ≠ "")
    (hq2 : exOk (pyInt q) = false) :
    (∃ e, buildPayload fs = .error e) ∧
    (create_filesystem net ps u pw fs).2.2 = [] ∧
    (∀ (total idx : Nat) (rest : List Row), ∃ e,
      processRowsAux net ps u pw total idx (fs :: rest) =
        ({ index := idx, total := total, fsName := name,
           outcome := .errored e } :: (processRowsAux net ps u pw total (idx + 1) rest).1,
         (processRowsAux net ps u pw total (idx + 1) rest).2.1,
         (processRowsAux net ps u pw total (idx + 1) rest).2.2)) := by
  have hbe : ∃ e, buildPayload fs = .error e := by
    cases hb : buildPayload fs with
    | error e => exact ⟨e, rfl⟩
    | ok p =>
      obtain ⟨-, -, -, -, -, q2, hq3, hcase⟩ := buildPayload_fields fs p hb
      rw [hq] at hq3
      have hqq : q = q2 := by simpa using hq3
      subst hqq
      rcases hcase with ⟨hb1, -⟩ | ⟨-, n, hn, -⟩
      · exact absurd hb1 hq1
      · rw [hn] at hq2
        simp [exOk] at hq2
  obtain ⟨e, he⟩ := hbe
  refine ⟨⟨e, he⟩, ?_, ?_⟩
  · simp [create_filesystem, he]
  · intro total idx rest
    refine ⟨e, ?_⟩
    have hc := create_of_error net ps u pw fs e he
    simp [processRowsAux, hname, hc]

/-- Witness for C10 on a concrete row with quota `"abc"`. -/
theorem bad_quota_fails_before_post_witness :
    (∃ e, buildPayload rowBadQuota = .error e) ∧
    (create_filesystem netOK "10.0.0.1" "admin" "pw" rowBadQuota).2.2 = [] := by
  have h := bad_quota_fails_before_post netOK "10.0.0.1" "admin" "pw" rowBadQuota "fs1" "abc"
    (by decide) (by decide) (by decide) (by decide)
  exact ⟨h.1, h.2.1⟩

end Powerstore
